import Mathlib

/-!
Shallow embedding of `scripts/seed_data.py` (SOC Blackout synthetic data
seeder), restricted to its pure data-generation core: the configuration
constants, the four randomized document generators, the static incident
catalog, and the batch assembly of `seed_scenario`.

Modelling conventions:
* Times are rationals measured in minutes (an arbitrary epoch); Python's
  `base + timedelta(minutes=offset)` followed by `isoformat()` is modelled
  as the time value `base + offset` (the ISO string is order- and
  equality-faithful to the underlying instant).  Day-valued deltas are
  converted at 1440 minutes per day.
* Python floats are modelled as rationals; `round(x, k)` is modelled as
  exact decimal rounding with ties to even (`pyround1`, `pyround2`),
  which is Python's rounding rule.
* The random number generator is modelled as an explicit tape of draws,
  one record per loop iteration: `random.uniform a b` consumes a value of
  the unit interval (`UnitQ`), `random.randint a b` a natural number that
  is reduced mod the size of the range, `random.choice xs` a natural
  number reduced mod the length of `xs`, and `random.sample(xs, 2)` two
  such numbers (`sample2`).  Every value a Python draw can produce is
  producible by some tape value, and nothing else is.
* `hashlib.md5(fake.uuid4().encode()).hexdigest()[:16]` (`_trace`) and
  the repeated `datetime.now(timezone.utc)` calls of `generate_incidents`
  are opaque randomness / clock readings and are taken from the tape
  directly (a `String`, resp. a stream of rational time values).
* `ERROR_MESSAGES_BY_SCENARIO` is a Python dict literal; it is modelled
  as a lookup function returning `Option`, with `none` standing for the
  `KeyError` an unknown scenario key raises in `generate_incident_logs`.
-/

/-! ## Random draw model -/

/-- Value drawn from the closed unit interval, the normalized output of
`random.uniform`. -/
abbrev UnitQ := {q : ℚ // 0 ≤ q ∧ q ≤ 1}

/-- Model of `random.uniform(a, b)`: an affine map of a unit-interval draw. -/
def uniform (a b : ℚ) (u : UnitQ) : ℚ := a + (b - a) * u.val

/-- Model of `random.randint(a, b)` (inclusive bounds): the tape value is
reduced into the range `[a, b]`. -/
def randint (a b : ℤ) (k : ℕ) : ℤ := a + (k : ℤ) % (b - a + 1)

/-- Model of `random.choice(xs)`: the tape value is reduced mod the list
length.  The default `d` is unreachable for the nonempty lists the program
uses. -/
def choice {α : Type} (xs : List α) (d : α) (k : ℕ) : α :=
  xs.getD (k % xs.length) d

/-- Model of `random.sample(xs, 2)`: a first element is drawn from `xs`,
a second from `xs` with the first removed (sampling without replacement). -/
def sample2 (xs : List String) (j1 j2 : ℕ) : List String :=
  let i1 := j1 % xs.length
  let rest := xs.eraseIdx i1
  [xs.getD i1 "", rest.getD (j2 % rest.length) ""]

/-! ## Python `round` -/

/-- Round to the nearest integer, ties to even (Python's rounding rule). -/
def roundHalfEven (q : ℚ) : ℤ :=
  let f := ⌊q⌋
  let frac := q - f
  if frac < 1/2 then f
  else if 1/2 < frac then f + 1
  else if f % 2 = 0 then f else f + 1

/-- Model of Python `round(x, 1)`. -/
def pyround1 (q : ℚ) : ℚ := (roundHalfEven (q * 10) : ℚ) / 10

/-- Model of Python `round(x, 2)`. -/
def pyround2 (q : ℚ) : ℚ := (roundHalfEven (q * 100) : ℚ) / 100

/-! ## Data generation constants (`SERVICES` … `ERROR_MESSAGES_BY_SCENARIO`) -/

def SERVICES : List String := [
  "api-gateway", "auth-service", "payment-service",
  "user-service", "notification-service", "search-service",
  "order-service", "inventory-service"]

def HOSTS : List String := [
  "prod-web-01", "prod-web-02", "prod-web-03",
  "prod-app-01", "prod-app-02",
  "prod-db-01", "prod-db-02",
  "prod-cache-01"]

def LOG_LEVELS_NORMAL : List String :=
  ["INFO", "DEBUG", "INFO", "INFO", "WARN", "INFO"]

def LOG_LEVELS_INCIDENT : List String :=
  ["ERROR", "CRITICAL", "ERROR", "FATAL", "ERROR", "WARN"]

/-- A normal-log message template: a function of the `format` keyword
arguments `t`, `service`, `n`, `uid` (each template uses the ones its
placeholders name). -/
abbrev NormalTemplate := ℤ → String → ℤ → ℤ → String

def NORMAL_MESSAGES : List NormalTemplate := [
  fun t _service _n _uid => "Request processed successfully in " ++ toString t ++ "ms",
  fun _t service _n _uid => "Health check passed for " ++ service,
  fun _t _service n _uid => "Connection pool at " ++ toString n ++ "% capacity",
  fun _t _service n _uid => "Cache hit ratio: " ++ toString n ++ "%",
  fun _t _service _n _uid => "Scheduled task completed: cleanup_old_sessions",
  fun _t _service _n uid => "User authentication successful for user_id=" ++ toString uid,
  fun t _service _n _uid => "Database query executed in " ++ toString t ++ "ms",
  fun _t service _n _uid => "Rate limiter reset for " ++ service]

/-- An incident-log message template: a function of the `format` keyword
arguments `host`, `service`, `n`, `t`. -/
abbrev IncidentTemplate := String → String → ℤ → ℤ → String

def CPU_SPIKE_MSGS : List IncidentTemplate := [
  fun host _service n _t => "CPU throttling detected on " ++ host ++ ": usage at " ++ toString n ++ "%",
  fun host _service n _t => "Thread pool exhausted on " ++ host ++ ", " ++ toString n ++ " tasks queued",
  fun _host service _n _t => "Request timeout after 30000ms on " ++ service,
  fun host _service _n t => "GC pause exceeded threshold: " ++ toString t ++ "ms on " ++ host,
  fun host _service _n _t => "Load balancer health check failed for " ++ host]

def OOM_CRASH_MSGS : List IncidentTemplate := [
  fun host _service _n _t => "OutOfMemoryError: Java heap space on " ++ host,
  fun host service _n _t => "Container killed by OOM killer: " ++ service ++ " on " ++ host,
  fun _host _service n _t => "Memory allocation failed: requested " ++ toString n ++ "MB, available 12MB",
  fun host service _n _t => "Pod " ++ service ++ " restarting due to OOMKilled on " ++ host,
  fun _host service _n t => "Heap dump generated: /var/log/" ++ service ++ "/heap_" ++ toString t ++ ".hprof"]

def CASCADING_FAILURE_MSGS : List IncidentTemplate := [
  fun host service _n _t => "Connection refused to " ++ service ++ " from " ++ host,
  fun _host service _n _t => "Circuit breaker OPEN for " ++ service ++ ": 15 failures in 60s",
  fun _host service _n _t => "Downstream dependency " ++ service ++ " unavailable, returning 503",
  fun _host service _n _t => "Retry exhausted for " ++ service ++ " after 3 attempts",
  fun _host service n _t => "Dead letter queue growing: " ++ toString n ++ " messages pending for " ++ service,
  fun _host service _n _t => "Cascading timeout: " ++ service ++ " -> payment-service -> auth-service"]

/-- The dict `ERROR_MESSAGES_BY_SCENARIO` as a lookup: `none` models the
`KeyError` raised by subscription with an unknown scenario key. -/
def ERROR_MESSAGES_BY_SCENARIO (scenario : String) : Option (List IncidentTemplate) :=
  if scenario = "cpu_spike" then some CPU_SPIKE_MSGS
  else if scenario = "oom_crash" then some OOM_CRASH_MSGS
  else if scenario = "cascading_failure" then some CASCADING_FAILURE_MSGS
  else none

/-! ## Index mappings (field name / field type, per index) -/

def MAPPINGS : List (String × List (String × String)) := [
  ("soc-logs", [
    ("@timestamp", "date"), ("service", "keyword"), ("level", "keyword"),
    ("message", "text"), ("host", "keyword"), ("trace_id", "keyword")]),
  ("soc-metrics", [
    ("@timestamp", "date"), ("host", "keyword"), ("cpu_pct", "float"),
    ("mem_pct", "float"), ("disk_io", "float"), ("net_in", "long"),
    ("net_out", "long")]),
  ("soc-incidents", [
    ("incident_id", "keyword"), ("title", "text"), ("root_cause", "text"),
    ("resolution", "text"), ("services_affected", "keyword"),
    ("severity", "keyword"), ("duration_min", "integer"),
    ("created_at", "date"), ("tags", "keyword"), ("runbook", "text")]),
  ("soc-actions", [
    ("@timestamp", "date"), ("action_type", "keyword"),
    ("description", "text"), ("confidence", "integer"),
    ("status", "keyword"), ("incident_ref", "keyword")])]

/-! ## Document shapes -/

/-- A `soc-logs` document (`_index` plus the mapped fields). -/
structure LogDoc where
  index : String
  timestamp : ℚ
  service : String
  level : String
  message : String
  host : String
  trace_id : String
  deriving Repr, DecidableEq

instance : Inhabited LogDoc := ⟨⟨"", 0, "", "", "", "", ""⟩⟩

/-- A `soc-metrics` document. -/
structure MetricDoc where
  index : String
  timestamp : ℚ
  host : String
  cpu_pct : ℚ
  mem_pct : ℚ
  disk_io : ℚ
  net_in : ℤ
  net_out : ℤ
  deriving Repr, DecidableEq

instance : Inhabited MetricDoc := ⟨⟨"", 0, "", 0, 0, 0, 0, 0⟩⟩

/-- An entry of the static `HISTORICAL_INCIDENTS` catalog. -/
structure IncidentEntry where
  incident_id : String
  title : String
  root_cause : String
  resolution : String
  services_affected : List String
  severity : String
  duration_min : ℕ
  tags : List String
  runbook : String
  deriving Repr, DecidableEq

instance : Inhabited IncidentEntry := ⟨⟨"", "", "", "", [], "", 0, [], ""⟩⟩

/-- A `soc-incidents` document: a catalog entry plus `_index` and the
randomized `created_at`. -/
structure IncidentDoc where
  index : String
  incident_id : String
  title : String
  root_cause : String
  resolution : String
  services_affected : List String
  severity : String
  duration_min : ℕ
  tags : List String
  runbook : String
  created_at : ℚ
  deriving Repr, DecidableEq

instance : Inhabited IncidentDoc := ⟨⟨"", "", "", "", "", [], "", 0, [], "", 0⟩⟩

/-- A document of the bulk batch assembled by `seed_scenario`. -/
inductive Doc where
  | log (d : LogDoc)
  | metric (d : MetricDoc)
  | incident (d : IncidentDoc)
  deriving Repr, DecidableEq

/-- The `_index` a batch document targets. -/
def Doc.index : Doc → String
  | .log d => d.index
  | .metric d => d.index
  | .incident d => d.index

instance : Inhabited Doc := ⟨Doc.log default⟩

/-! ## Generators -/

/-- Model of `_ts`: the ISO timestamp of `base + timedelta(minutes=offset)`,
as a time value in minutes. -/
def _ts (base offset : ℚ) : ℚ := base + offset

/-- The random draws one iteration of `generate_normal_logs` consumes. -/
structure NormalLogRand where
  offU : UnitQ
  svcK : ℕ
  hostK : ℕ
  msgK : ℕ
  tK : ℕ
  nK : ℕ
  uidK : ℕ
  lvlK : ℕ
  traceId : String

/-- Model of `generate_normal_logs`. -/
def generate_normal_logs (base : ℚ) (count : ℕ := 200) (ρ : ℕ → NormalLogRand) :
    List LogDoc :=
  (List.range count).map fun i =>
    let r := ρ i
    let offset := uniform (-60) 0 r.offU
    let service := choice SERVICES "" r.svcK
    let host := choice HOSTS "" r.hostK
    let msg_template := choice NORMAL_MESSAGES (fun _ _ _ _ => "") r.msgK
    let msg := msg_template (randint 2 500 r.tK) service (randint 10 95 r.nK)
      (randint 1000 99999 r.uidK)
    { index := "soc-logs"
      timestamp := _ts base offset
      service := service
      level := choice LOG_LEVELS_NORMAL "" r.lvlK
      message := msg
      host := host
      trace_id := r.traceId }

/-- The random draws one iteration of `generate_incident_logs` consumes. -/
structure IncidentLogRand where
  offU : UnitQ
  svcK : ℕ
  hostK : ℕ
  msgK : ℕ
  nK : ℕ
  tK : ℕ
  lvlK : ℕ
  traceId : String

/-- The loop body of `generate_incident_logs`, once the scenario's message
list has been looked up. -/
def incident_log_docs (base : ℚ) (count : ℕ) (ρ : ℕ → IncidentLogRand)
    (error_msgs : List IncidentTemplate) : List LogDoc :=
  (List.range count).map fun i =>
    let r := ρ i
    let offset := uniform (-15) 0 r.offU
    let service := choice (SERVICES.take 4) "" r.svcK
    let host := choice (HOSTS.take 4) "" r.hostK
    let msg_template := choice error_msgs (fun _ _ _ _ => "") r.msgK
    let msg := msg_template host service (randint 85 100 r.nK)
      (randint 1000 30000 r.tK)
    { index := "soc-logs"
      timestamp := _ts base offset
      service := service
      level := choice LOG_LEVELS_INCIDENT "" r.lvlK
      message := msg
      host := host
      trace_id := r.traceId }

/-- Model of `generate_incident_logs`: `none` models the `KeyError` that
`ERROR_MESSAGES_BY_SCENARIO[scenario]` raises on an unknown key. -/
def generate_incident_logs (base : ℚ) (scenario : String) (count : ℕ := 80)
    (ρ : ℕ → IncidentLogRand) : Option (List LogDoc) :=
  ( ERROR_MESSAGES_BY_SCENARIO scenario).map (incident_log_docs base count ρ)

/-- The random draws one iteration of `generate_normal_metrics` consumes. -/
structure NormalMetricRand where
  offU : UnitQ
  hostK : ℕ
  cpuU : UnitQ
  memU : UnitQ
  diskU : UnitQ
  netInK : ℕ
  netOutK : ℕ

/-- Model of `generate_normal_metrics`. -/
def generate_normal_metrics (base : ℚ) (count : ℕ := 100) (ρ : ℕ → NormalMetricRand) :
    List MetricDoc :=
  (List.range count).map fun i =>
    let r := ρ i
    let offset := uniform (-60) 0 r.offU
    let host := choice HOSTS "" r.hostK
    { index := "soc-metrics"
      timestamp := _ts base offset
      host := host
      cpu_pct := pyround1 (uniform 10 55 r.cpuU)
      mem_pct := pyround1 (uniform 30 70 r.memU)
      disk_io := pyround2 (uniform 0.5 20 r.diskU)
      net_in := randint 100000 5000000 r.netInK
      net_out := randint 50000 3000000 r.netOutK }

/-- The random draws one iteration of `generate_incident_metrics` consumes. -/
structure IncidentMetricRand where
  offU : UnitQ
  hostK : ℕ
  cpuU : UnitQ
  memU : UnitQ
  diskU : UnitQ
  netInK : ℕ
  netOutK : ℕ

/-- Model of `generate_incident_metrics`.  `j1 j2` are the draws of
`random.sample(HOSTS[:4], 2)`.  Note the source's `if/elif/else` sends every
scenario other than `cpu_spike` and `oom_crash` — unknown strings included —
into the `cascading_failure` branch. -/
def generate_incident_metrics (base : ℚ) (scenario : String) (count : ℕ := 50)
    (j1 j2 : ℕ) (ρ : ℕ → IncidentMetricRand) : List MetricDoc :=
  let target_hosts := sample2 (HOSTS.take 4) j1 j2
  (List.range count).map fun i =>
    let r := ρ i
    let offset := uniform (-15) 0 r.offU
    let host := choice target_hosts "" r.hostK
    let cm :=
      if scenario = "cpu_spike" then
        (pyround1 (uniform 92 100 r.cpuU), pyround1 (uniform 60 80 r.memU))
      else if scenario = "oom_crash" then
        (pyround1 (uniform 50 75 r.cpuU), pyround1 (uniform 95 100 r.memU))
      else
        (pyround1 (uniform 80 98 r.cpuU), pyround1 (uniform 75 95 r.memU))
    { index := "soc-metrics"
      timestamp := _ts base offset
      host := host
      cpu_pct := cm.1
      mem_pct := cm.2
      disk_io := pyround2 (uniform 50 200 r.diskU)
      net_in := randint 10000000 50000000 r.netInK
      net_out := randint 5000000 30000000 r.netOutK }

/-! ## Historical incidents knowledge base -/

def HISTORICAL_INCIDENTS : List IncidentEntry := [
  { incident_id := "INC-001"
    title := "Payment service OOM crash during Black Friday surge"
    root_cause := "Memory leak in payment-service connection pool. The JDBC connection pool was not releasing connections on transaction timeout, leading to heap exhaustion under load."
    resolution := "Patched connection pool library to v3.2.1, added connection timeout of 30s, increased heap to 4GB, and added memory-based autoscaling."
    services_affected := ["payment-service", "order-service", "api-gateway"]
    severity := "critical"
    duration_min := 45
    tags := ["oom", "memory", "payment", "connection-pool", "black-friday"]
    runbook := "When payment-service experiences OOM: 1) Check heap usage with `kubectl top pods -n payments`. 2) If heap > 90%, restart the pod: `kubectl rollout restart deployment/payment-service`. 3) Check connection pool metrics: `GET /actuator/metrics/hikaricp.connections.active`. 4) If connections are not being released, apply hotfix: scale up replicas to 5 and patch connection timeout. 5) Monitor for 15 minutes. 6) If issue persists, failover to payment-service-backup." },
  { incident_id := "INC-002"
    title := "API Gateway CPU spike from recursive middleware loop"
    root_cause := "A misconfigured middleware in api-gateway caused a recursive call loop when processing requests with specific headers. CPU spiked to 100% across all gateway pods."
    resolution := "Identified the faulty middleware rule via CPU profiling, rolled back to previous gateway config version, added middleware stack depth limit of 10."
    services_affected := ["api-gateway", "auth-service"]
    severity := "critical"
    duration_min := 32
    tags := ["cpu", "api-gateway", "middleware", "recursion", "config"]
    runbook := "When api-gateway CPU spikes above 95%: 1) Check recent config deployments: `kubectl get configmap api-gateway-config -o yaml`. 2) Compare with last known good config. 3) If config changed recently, rollback: `kubectl rollout undo deployment/api-gateway`. 4) If CPU stays high, check for recursive middleware: `curl localhost:8080/actuator/threaddump | grep middleware`. 5) Scale up to absorb traffic while investigating." },
  { incident_id := "INC-003"
    title := "Cascading failure from auth-service certificate expiry"
    root_cause := "TLS certificate for auth-service expired at 00:00 UTC. All services depending on auth-service started failing, creating a cascade. Circuit breakers activated but the retry storms amplified the load."
    resolution := "Renewed TLS certificate, restarted auth-service, then gradually reopened circuit breakers across dependent services. Added certificate expiry monitoring to prevent recurrence."
    services_affected := ["auth-service", "api-gateway", "payment-service", "user-service", "order-service"]
    severity := "critical"
    duration_min := 67
    tags := ["cascading", "tls", "certificate", "auth", "circuit-breaker"]
    runbook := "When auth-service connections are refused across multiple services: 1) Check auth-service TLS cert: `openssl s_client -connect auth-service:443 2>/dev/null | openssl x509 -noout -dates`. 2) If cert expired, renew immediately: `certbot renew --deploy-hook 'kubectl rollout restart deployment/auth-service'`. 3) After auth is back, reset circuit breakers on dependent services one at a time, starting with api-gateway. 4) Monitor error rates for 30 minutes before declaring resolved." },
  { incident_id := "INC-004"
    title := "Search service latency spike from unoptimized Elasticsearch query"
    root_cause := "A new feature deployment included a wildcard query on a large index without proper filters, causing ES cluster CPU to saturate and search latency to spike to 15s."
    resolution := "Identified the offending query via slow query log, added index filters and pagination, redeployed search-service with the fix."
    services_affected := ["search-service"]
    severity := "high"
    duration_min := 22
    tags := ["latency", "elasticsearch", "query", "search"]
    runbook := "When search-service latency exceeds 5s: 1) Check ES slow query log: `GET /_nodes/stats/indices/search`. 2) Identify the slow query. 3) If wildcard query, add filters or convert to prefix query. 4) If cluster CPU > 90%, enable circuit breaker: `PUT /_cluster/settings \x7b\"transient\": \x7b\"indices.breaker.total.limit\": \"70%\"\x7d\x7d`. 5) Redeploy search-service with fix." },
  { incident_id := "INC-005"
    title := "Database connection exhaustion on prod-db-01"
    root_cause := "A background job in user-service opened database connections without closing them properly. After 6 hours of running, all 200 connection slots on prod-db-01 were consumed."
    resolution := "Killed the runaway background job, released stale connections, patched user-service to use connection pooling with max 20 connections per service instance."
    services_affected := ["user-service", "auth-service", "order-service"]
    severity := "high"
    duration_min := 38
    tags := ["database", "connections", "leak", "user-service", "production"]
    runbook := "When database connections are exhausted: 1) Check active connections: `SELECT count(*) FROM pg_stat_activity WHERE state = 'active'`. 2) Identify the service holding most connections: `SELECT application_name, count(*) FROM pg_stat_activity GROUP BY application_name ORDER BY count DESC`. 3) Kill idle connections: `SELECT pg_terminate_backend(pid) FROM pg_stat_activity WHERE state = 'idle' AND query_start < NOW() - interval '10 minutes'`. 4) Restart the offending service. 5) Add connection pool limits." },
  { incident_id := "INC-006"
    title := "Notification service disk full causing message loss"
    root_cause := "Notification service log volume on prod-app-02 filled the disk to 100%. The service could not write to its message queue, causing notifications to be silently dropped."
    resolution := "Cleared old logs, rotated log files, added log retention policy (7 days max, 10GB cap), added disk usage monitoring alert at 80%."
    services_affected := ["notification-service"]
    severity := "medium"
    duration_min := 18
    tags := ["disk", "logs", "notification", "message-loss"]
    runbook := "When disk usage exceeds 90% on any host: 1) Check what's consuming disk: `du -sh /var/log/* | sort -rh | head`. 2) If logs, rotate immediately: `logrotate -f /etc/logrotate.conf`. 3) Delete logs older than 7 days: `find /var/log -name '*.log' -mtime +7 -delete`. 4) Restart the affected service. 5) Verify message queue is draining: `curl localhost:8080/actuator/metrics/queue.size`." },
  { incident_id := "INC-007"
    title := "Cache stampede on prod-cache-01 after cold restart"
    root_cause := "After a planned maintenance restart of prod-cache-01, all cached data was evicted. The simultaneous cache miss storm from all services overwhelmed the database backend."
    resolution := "Implemented cache warming script that pre-populates hot keys before bringing cache online. Added gradual traffic ramp-up after cache restart."
    services_affected := ["api-gateway", "search-service", "user-service", "order-service"]
    severity := "high"
    duration_min := 25
    tags := ["cache", "stampede", "cold-start", "redis"]
    runbook := "After cache restart: 1) Run cache warming script before routing traffic: `python warm_cache.py --keys hot_keys.txt`. 2) Enable gradual traffic ramp: increase weight from 10% to 100% over 10 minutes. 3) Monitor cache hit ratio: should reach >80% within 5 minutes. 4) If DB load spikes, temporarily enable read replicas." },
  { incident_id := "INC-008"
    title := "Inventory service race condition causing overselling"
    root_cause := "Concurrent stock decrement operations on inventory-service were not using optimistic locking. Under high load, multiple orders could reserve the same unit of stock."
    resolution := "Added optimistic locking with version check on inventory updates. Implemented idempotency keys for order placement. Added stock reconciliation job running every 5 minutes."
    services_affected := ["inventory-service", "order-service"]
    severity := "critical"
    duration_min := 90
    tags := ["race-condition", "inventory", "concurrency", "data-integrity"]
    runbook := "When overselling is detected: 1) Immediately pause order intake: `kubectl scale deployment/order-service --replicas=0`. 2) Run stock reconciliation: `python reconcile_stock.py --fix`. 3) Contact affected customers. 4) Deploy fix with optimistic locking. 5) Resume order service with reduced replicas, monitor for 1 hour." }]

/-- Model of `generate_incidents`.  `nowF i` is the reading of
`datetime.now(timezone.utc)` taken during iteration `i` (the wall clock has
finite resolution, so distinct iterations may read equal values); `dk i`
feeds `random.randint(7, 180)`.  `timedelta(days=d)` is `d * 1440` minutes. -/
def generate_incidents (nowF : ℕ → ℚ) (dk : ℕ → ℕ) : List IncidentDoc :=
  HISTORICAL_INCIDENTS.mapIdx fun i inc =>
    { index := "soc-incidents"
      incident_id := inc.incident_id
      title := inc.title
      root_cause := inc.root_cause
      resolution := inc.resolution
      services_affected := inc.services_affected
      severity := inc.severity
      duration_min := inc.duration_min
      tags := inc.tags
      runbook := inc.runbook
      created_at := nowF i - (randint 7 180 (dk i) : ℚ) * 1440 }

/-! ## `seed_scenario` (its pure part: the assembled batch) -/

/-- The document batch `seed_scenario` assembles and hands to the bulk
insert, with the counts the source passes (200/100/80/50, the generator
defaults).  `none` models the `KeyError` escaping from
`generate_incident_logs` on an unknown scenario, which aborts the batch. -/
def seed_scenario_docs (now : ℚ) (scenario : String)
    (ρnl : ℕ → NormalLogRand) (ρnm : ℕ → NormalMetricRand)
    (ρil : ℕ → IncidentLogRand) (j1 j2 : ℕ) (ρim : ℕ → IncidentMetricRand)
    (nowF : ℕ → ℚ) (dk : ℕ → ℕ) : Option (List Doc) :=
  let normal_logs := generate_normal_logs now 200 ρnl
  let normal_metrics := generate_normal_metrics now 100 ρnm
  match generate_incident_logs now scenario 80 ρil with
  | none => none
  | some incident_logs =>
    let incident_metrics := generate_incident_metrics now scenario 50 j1 j2 ρim
    let incidents := generate_incidents nowF dk
    some (normal_logs.map Doc.log ++ normal_metrics.map Doc.metric
      ++ incident_logs.map Doc.log ++ incident_metrics.map Doc.metric
      ++ incidents.map Doc.incident)

/-! ## Bounds for the draw model -/

lemma le_uniform {a b : ℚ} (h : a ≤ b) (u : UnitQ) : a ≤ uniform a b u := by
  have h0 := u.2.1
  have h1 := u.2.2
  unfold uniform
  nlinarith

lemma uniform_le {a b : ℚ} (h : a ≤ b) (u : UnitQ) : uniform a b u ≤ b := by
  have h0 := u.2.1
  have h1 := u.2.2
  unfold uniform
  nlinarith

lemma le_randint {a b : ℤ} (h : a ≤ b) (k : ℕ) : a ≤ randint a b k := by
  unfold randint
  have : 0 ≤ (k:ℤ) % (b - a + 1) := Int.emod_nonneg _ (by omega)
  omega

lemma randint_le {a b : ℤ} (h : a ≤ b) (k : ℕ) : randint a b k ≤ b := by
  unfold randint
  have : (k:ℤ) % (b - a + 1) < b - a + 1 := Int.emod_lt_of_pos _ (by omega)
  omega

lemma choice_mem {α : Type} {xs : List α} (hne : xs ≠ []) (d : α) (k : ℕ) :
    choice xs d k ∈ xs := by
  have hl : 0 < xs.length := List.length_pos.mpr hne
  have hk : k % xs.length < xs.length := Nat.mod_lt _ hl
  rw [choice, List.getD_eq_getElem xs d hk]
  exact List.getElem_mem hk

lemma le_roundHalfEven {q : ℚ} {n : ℤ} (h : (n:ℚ) ≤ q) : n ≤ roundHalfEven q := by
  have hnf : n ≤ ⌊q⌋ := Int.le_floor.mpr h
  unfold roundHalfEven
  dsimp only
  split_ifs <;> omega

lemma roundHalfEven_le {q : ℚ} {n : ℤ} (h : q ≤ (n:ℚ)) : roundHalfEven q ≤ n := by
  have hfn : ⌊q⌋ ≤ n := by
    have := Int.floor_le_floor h
    simpa using this
  unfold roundHalfEven
  dsimp only
  split_ifs with h1 h2 h3
  · exact hfn
  · have hq : (⌊q⌋:ℚ) + 1/2 ≤ q := by
      have := not_lt.mp h1
      linarith
    have : (⌊q⌋:ℚ) < (n:ℚ) := by linarith
    have : ⌊q⌋ < n := by exact_mod_cast this
    omega
  · exact hfn
  · have hq : (⌊q⌋:ℚ) + 1/2 ≤ q := by
      have := not_lt.mp h1
      linarith
    have : (⌊q⌋:ℚ) < (n:ℚ) := by linarith
    have : ⌊q⌋ < n := by exact_mod_cast this
    omega

lemma pyround1_bounds (nlo nhi : ℤ) {q lo hi : ℚ} (hlo : (nlo:ℚ) = lo * 10)
    (hhi : (nhi:ℚ) = hi * 10) (h1 : lo ≤ q) (h2 : q ≤ hi) :
    lo ≤ pyround1 q ∧ pyround1 q ≤ hi := by
  unfold pyround1
  have hb1 : nlo ≤ roundHalfEven (q * 10) := le_roundHalfEven (by rw [hlo]; nlinarith)
  have hb2 : roundHalfEven (q * 10) ≤ nhi := roundHalfEven_le (by rw [hhi]; nlinarith)
  have hc1 : (nlo:ℚ) ≤ (roundHalfEven (q * 10) : ℚ) := by exact_mod_cast hb1
  have hc2 : ((roundHalfEven (q * 10)):ℚ) ≤ (nhi:ℚ) := by exact_mod_cast hb2
  constructor <;> [linarith [hlo ▸ hc1]; linarith [hhi ▸ hc2]]

lemma pyround2_bounds (nlo nhi : ℤ) {q lo hi : ℚ} (hlo : (nlo:ℚ) = lo * 100)
    (hhi : (nhi:ℚ) = hi * 100) (h1 : lo ≤ q) (h2 : q ≤ hi) :
    lo ≤ pyround2 q ∧ pyround2 q ≤ hi := by
  unfold pyround2
  have hb1 : nlo ≤ roundHalfEven (q * 100) := le_roundHalfEven (by rw [hlo]; nlinarith)
  have hb2 : roundHalfEven (q * 100) ≤ nhi := roundHalfEven_le (by rw [hhi]; nlinarith)
  have hc1 : (nlo:ℚ) ≤ (roundHalfEven (q * 100) : ℚ) := by exact_mod_cast hb1
  have hc2 : ((roundHalfEven (q * 100)):ℚ) ≤ (nhi:ℚ) := by exact_mod_cast hb2
  constructor <;> [linarith [hlo ▸ hc1]; linarith [hhi ▸ hc2]]

lemma sample2_take4_spec (j1 j2 : ℕ) :
    (sample2 (HOSTS.take 4) j1 j2).Nodup ∧
    ∀ x ∈ sample2 (HOSTS.take 4) j1 j2, x ∈ HOSTS.take 4 := by
  have key : ∀ a < 4, ∀ b < 3,
      (([(HOSTS.take 4).getD a "",
        ((HOSTS.take 4).eraseIdx a).getD b ""] : List String).Nodup ∧
      ∀ x ∈ ([(HOSTS.take 4).getD a "",
        ((HOSTS.take 4).eraseIdx a).getD b ""] : List String), x ∈ HOSTS.take 4) := by
    decide
  have h4 : j1 % 4 < 4 := Nat.mod_lt _ (by norm_num)
  have h3 : j2 % ((HOSTS.take 4).eraseIdx (j1 % 4)).length < 3 := by
    have hl : ((HOSTS.take 4).eraseIdx (j1 % 4)).length = 3 := by
      rw [List.length_eraseIdx]
      simp [HOSTS]
      omega
    rw [hl]
    exact Nat.mod_lt _ (by norm_num)
  have e : sample2 (HOSTS.take 4) j1 j2 =
      [(HOSTS.take 4).getD (j1 % 4) "",
       ((HOSTS.take 4).eraseIdx (j1 % 4)).getD
         (j2 % ((HOSTS.take 4).eraseIdx (j1 % 4)).length) ""] := rfl
  rw [e]
  exact key (j1 % 4) h4 (j2 % ((HOSTS.take 4).eraseIdx (j1 % 4)).length) h3

/-! ## Per-generator record facts -/

lemma generate_normal_logs_mem {base : ℚ} {n : ℕ} {ρ : ℕ → NormalLogRand}
    {d : LogDoc} (hd : d ∈ generate_normal_logs base n ρ) :
    d.index = "soc-logs" ∧ base - 60 ≤ d.timestamp ∧ d.timestamp ≤ base ∧
    d.service ∈ SERVICES ∧ d.host ∈ HOSTS ∧ d.level ∈ LOG_LEVELS_NORMAL := by
  rw [generate_normal_logs, List.mem_map] at hd
  obtain ⟨i, _hi, rfl⟩ := hd
  refine ⟨rfl, ?_, ?_, ?_, ?_, ?_⟩
  · have := le_uniform (by norm_num : (-60:ℚ) ≤ 0) (ρ i).offU
    show base - 60 ≤ _ts base (uniform (-60) 0 (ρ i).offU)
    unfold _ts
    linarith
  · have := uniform_le (by norm_num : (-60:ℚ) ≤ 0) (ρ i).offU
    show _ts base (uniform (-60) 0 (ρ i).offU) ≤ base
    unfold _ts
    linarith
  · exact choice_mem (by decide) _ _
  · exact choice_mem (by decide) _ _
  · exact choice_mem (by decide) _ _

lemma generate_normal_logs_length (base : ℚ) (n : ℕ) (ρ : ℕ → NormalLogRand) :
    (generate_normal_logs base n ρ).length = n := by
  simp [generate_normal_logs]

lemma incident_log_docs_length (base : ℚ) (n : ℕ) (ρ : ℕ → IncidentLogRand)
    (msgs : List IncidentTemplate) : (incident_log_docs base n ρ msgs).length = n := by
  simp [incident_log_docs]

lemma generate_normal_metrics_length (base : ℚ) (n : ℕ) (ρ : ℕ → NormalMetricRand) :
    (generate_normal_metrics base n ρ).length = n := by
  simp [generate_normal_metrics]

lemma generate_incident_metrics_length (base : ℚ) (scenario : String) (n : ℕ)
    (j1 j2 : ℕ) (ρ : ℕ → IncidentMetricRand) :
    (generate_incident_metrics base scenario n j1 j2 ρ).length = n := by
  simp [generate_incident_metrics]

lemma generate_incident_logs_isSome_iff (base : ℚ) (scenario : String) (n : ℕ)
    (ρ : ℕ → IncidentLogRand) :
    (generate_incident_logs base scenario n ρ).isSome ↔
      (scenario = "cpu_spike" ∨ scenario = "oom_crash" ∨
        scenario = "cascading_failure") := by
  unfold generate_incident_logs ERROR_MESSAGES_BY_SCENARIO
  split_ifs <;> simp_all

lemma generate_incident_logs_eq_some {base : ℚ} {scenario : String} {n : ℕ}
    {ρ : ℕ → IncidentLogRand} {docs : List LogDoc}
    (h : generate_incident_logs base scenario n ρ = some docs) :
    ∃ msgs, ERROR_MESSAGES_BY_SCENARIO scenario = some msgs ∧
      docs = incident_log_docs base n ρ msgs := by
  obtain ⟨msgs, hm, hd⟩ := Option.map_eq_some'.mp h
  exact ⟨msgs, hm, hd.symm⟩

lemma incident_log_docs_mem {base : ℚ} {n : ℕ} {ρ : ℕ → IncidentLogRand}
    {msgs : List IncidentTemplate} {d : LogDoc}
    (hd : d ∈ incident_log_docs base n ρ msgs) :
    d.index = "soc-logs" ∧ base - 15 ≤ d.timestamp ∧ d.timestamp ≤ base ∧
    d.service ∈ SERVICES.take 4 ∧ d.host ∈ HOSTS.take 4 ∧
    d.level ∈ LOG_LEVELS_INCIDENT := by
  rw [incident_log_docs, List.mem_map] at hd
  obtain ⟨i, _hi, rfl⟩ := hd
  refine ⟨rfl, ?_, ?_, ?_, ?_, ?_⟩
  · have := le_uniform (by norm_num : (-15:ℚ) ≤ 0) (ρ i).offU
    show base - 15 ≤ _ts base (uniform (-15) 0 (ρ i).offU)
    unfold _ts
    linarith
  · have := uniform_le (by norm_num : (-15:ℚ) ≤ 0) (ρ i).offU
    show _ts base (uniform (-15) 0 (ρ i).offU) ≤ base
    unfold _ts
    linarith
  · exact choice_mem (by decide) _ _
  · exact choice_mem (by decide) _ _
  · exact choice_mem (by decide) _ _

lemma generate_normal_metrics_mem {base : ℚ} {n : ℕ} {ρ : ℕ → NormalMetricRand}
    {d : MetricDoc} (hd : d ∈ generate_normal_metrics base n ρ) :
    d.index = "soc-metrics" ∧ base - 60 ≤ d.timestamp ∧ d.timestamp ≤ base ∧
    d.host ∈ HOSTS ∧
    10 ≤ d.cpu_pct ∧ d.cpu_pct ≤ 55 ∧ 30 ≤ d.mem_pct ∧ d.mem_pct ≤ 70 ∧
    0.5 ≤ d.disk_io ∧ d.disk_io ≤ 20 ∧
    100000 ≤ d.net_in ∧ d.net_in ≤ 5000000 ∧
    50000 ≤ d.net_out ∧ d.net_out ≤ 3000000 := by
  rw [generate_normal_metrics, List.mem_map] at hd
  obtain ⟨i, _hi, rfl⟩ := hd
  have hcpu := pyround1_bounds 100 550 (by norm_num) (by norm_num)
    (le_uniform (by norm_num : (10:ℚ) ≤ 55) (ρ i).cpuU)
    (uniform_le (by norm_num) (ρ i).cpuU)
  have hmem := pyround1_bounds 300 700 (by norm_num) (by norm_num)
    (le_uniform (by norm_num : (30:ℚ) ≤ 70) (ρ i).memU)
    (uniform_le (by norm_num) (ρ i).memU)
  have hdisk := pyround2_bounds 50 2000 (by norm_num) (by norm_num)
    (le_uniform (by norm_num : (0.5:ℚ) ≤ 20) (ρ i).diskU)
    (uniform_le (by norm_num) (ρ i).diskU)
  refine ⟨rfl, ?_, ?_, choice_mem (by decide) _ _, hcpu.1, hcpu.2, hmem.1, hmem.2,
    hdisk.1, hdisk.2, le_randint (by norm_num) _, randint_le (by norm_num) _,
    le_randint (by norm_num) _, randint_le (by norm_num) _⟩
  · have := le_uniform (by norm_num : (-60:ℚ) ≤ 0) (ρ i).offU
    show base - 60 ≤ _ts base (uniform (-60) 0 (ρ i).offU)
    unfold _ts
    linarith
  · have := uniform_le (by norm_num : (-60:ℚ) ≤ 0) (ρ i).offU
    show _ts base (uniform (-60) 0 (ρ i).offU) ≤ base
    unfold _ts
    linarith

lemma generate_incident_metrics_mem {base : ℚ} {scenario : String} {n : ℕ}
    {j1 j2 : ℕ} {ρ : ℕ → IncidentMetricRand} {d : MetricDoc}
    (hd : d ∈ generate_incident_metrics base scenario n j1 j2 ρ) :
    d.index = "soc-metrics" ∧ base - 15 ≤ d.timestamp ∧ d.timestamp ≤ base ∧
    d.host ∈ sample2 (HOSTS.take 4) j1 j2 ∧
    50 ≤ d.disk_io ∧ d.disk_io ≤ 200 ∧
    10000000 ≤ d.net_in ∧ d.net_in ≤ 50000000 ∧
    5000000 ≤ d.net_out ∧ d.net_out ≤ 30000000 ∧
    (scenario = "cpu_spike" →
      92 ≤ d.cpu_pct ∧ d.cpu_pct ≤ 100 ∧ 60 ≤ d.mem_pct ∧ d.mem_pct ≤ 80) ∧
    (scenario = "oom_crash" →
      50 ≤ d.cpu_pct ∧ d.cpu_pct ≤ 75 ∧ 95 ≤ d.mem_pct ∧ d.mem_pct ≤ 100) ∧
    (scenario ≠ "cpu_spike" → scenario ≠ "oom_crash" →
      80 ≤ d.cpu_pct ∧ d.cpu_pct ≤ 98 ∧ 75 ≤ d.mem_pct ∧ d.mem_pct ≤ 95) := by
  rw [generate_incident_metrics, List.mem_map] at hd
  obtain ⟨i, _hi, rfl⟩ := hd
  dsimp only
  refine ⟨rfl, ?_, ?_, ?_, ?_, ?_, le_randint (by norm_num) _,
    randint_le (by norm_num) _, le_randint (by norm_num) _,
    randint_le (by norm_num) _, ?_, ?_, ?_⟩
  · have := le_uniform (by norm_num : (-15:ℚ) ≤ 0) (ρ i).offU
    unfold _ts
    linarith
  · have := uniform_le (by norm_num : (-15:ℚ) ≤ 0) (ρ i).offU
    unfold _ts
    linarith
  · exact choice_mem (by simp [sample2]) _ _
  · exact (pyround2_bounds 5000 20000 (by norm_num) (by norm_num)
      (le_uniform (by norm_num : (50:ℚ) ≤ 200) (ρ i).diskU)
      (uniform_le (by norm_num) (ρ i).diskU)).1
  · exact (pyround2_bounds 5000 20000 (by norm_num) (by norm_num)
      (le_uniform (by norm_num : (50:ℚ) ≤ 200) (ρ i).diskU)
      (uniform_le (by norm_num) (ρ i).diskU)).2
  · intro hs
    rw [if_pos hs]
    have hc := pyround1_bounds 920 1000 (by norm_num) (by norm_num)
      (le_uniform (by norm_num : (92:ℚ) ≤ 100) (ρ i).cpuU)
      (uniform_le (by norm_num) (ρ i).cpuU)
    have hm := pyround1_bounds 600 800 (by norm_num) (by norm_num)
      (le_uniform (by norm_num : (60:ℚ) ≤ 80) (ρ i).memU)
      (uniform_le (by norm_num) (ρ i).memU)
    exact ⟨hc.1, hc.2, hm.1, hm.2⟩
  · intro hs
    rw [if_neg (by simp [hs]), if_pos hs]
    have hc := pyround1_bounds 500 750 (by norm_num) (by norm_num)
      (le_uniform (by norm_num : (50:ℚ) ≤ 75) (ρ i).cpuU)
      (uniform_le (by norm_num) (ρ i).cpuU)
    have hm := pyround1_bounds 950 1000 (by norm_num) (by norm_num)
      (le_uniform (by norm_num : (95:ℚ) ≤ 100) (ρ i).memU)
      (uniform_le (by norm_num) (ρ i).memU)
    exact ⟨hc.1, hc.2, hm.1, hm.2⟩
  · intro hs1 hs2
    rw [if_neg hs1, if_neg hs2]
    have hc := pyround1_bounds 800 980 (by norm_num) (by norm_num)
      (le_uniform (by norm_num : (80:ℚ) ≤ 98) (ρ i).cpuU)
      (uniform_le (by norm_num) (ρ i).cpuU)
    have hm := pyround1_bounds 750 950 (by norm_num) (by norm_num)
      (le_uniform (by norm_num : (75:ℚ) ≤ 95) (ρ i).memU)
      (uniform_le (by norm_num) (ρ i).memU)
    exact ⟨hc.1, hc.2, hm.1, hm.2⟩

lemma mapIdx_getElem? {α β : Type} (l : List α) (f : ℕ → α → β) (i : ℕ) :
    (l.mapIdx f)[i]? = l[i]?.map (f i) := by
  by_cases h : i < l.length
  · have h2 : i < (l.mapIdx f).length := by simpa using h
    rw [List.getElem?_eq_getElem h, List.getElem?_eq_getElem h2]
    simp [← List.get_eq_getElem, List.get_mapIdx]
  · rw [List.getElem?_eq_none (by simpa using h), List.getElem?_eq_none (by omega)]
    rfl

lemma generate_incidents_length (nowF : ℕ → ℚ) (dk : ℕ → ℕ) :
    (generate_incidents nowF dk).length = HISTORICAL_INCIDENTS.length := by
  simp [generate_incidents]

lemma generate_incidents_getElem? (nowF : ℕ → ℚ) (dk : ℕ → ℕ) (i : ℕ) :
    (generate_incidents nowF dk)[i]? = (HISTORICAL_INCIDENTS[i]?).map fun inc =>
      { index := "soc-incidents"
        incident_id := inc.incident_id
        title := inc.title
        root_cause := inc.root_cause
        resolution := inc.resolution
        services_affected := inc.services_affected
        severity := inc.severity
        duration_min := inc.duration_min
        tags := inc.tags
        runbook := inc.runbook
        created_at := nowF i - (randint 7 180 (dk i) : ℚ) * 1440 } := by
  rw [generate_incidents, mapIdx_getElem?]

lemma seed_scenario_docs_eq_some {now : ℚ} {scenario : String}
    {ρnl : ℕ → NormalLogRand} {ρnm : ℕ → NormalMetricRand}
    {ρil : ℕ → IncidentLogRand} {j1 j2 : ℕ} {ρim : ℕ → IncidentMetricRand}
    {nowF : ℕ → ℚ} {dk : ℕ → ℕ} {batch : List Doc}
    (h : seed_scenario_docs now scenario ρnl ρnm ρil j1 j2 ρim nowF dk = some batch) :
    ∃ il, generate_incident_logs now scenario 80 ρil = some il ∧
      batch = (generate_normal_logs now 200 ρnl).map Doc.log
        ++ (generate_normal_metrics now 100 ρnm).map Doc.metric
        ++ il.map Doc.log
        ++ (generate_incident_metrics now scenario 50 j1 j2 ρim).map Doc.metric
        ++ (generate_incidents nowF dk).map Doc.incident := by
  unfold seed_scenario_docs at h
  cases hgil : generate_incident_logs now scenario 80 ρil with
  | none => rw [hgil] at h; simp at h
  | some il =>
    rw [hgil] at h
    simp only [Option.some.injEq] at h
    exact ⟨il, rfl, h.symm⟩

lemma headI_mem {α : Type} [Inhabited α] {l : List α} (h : l ≠ []) :
    l.headI ∈ l := by
  cases l with
  | nil => exact absurd rfl h
  | cons a t => exact List.mem_cons_self a t

lemma getElem?_zero_headI {α : Type} [Inhabited α] {l : List α} (h : l ≠ []) :
    l[0]? = some l.headI := by
  cases l with
  | nil => exact absurd rfl h
  | cons a t => simp

lemma gil_cpu_spike (base : ℚ) (n : ℕ) (ρ : ℕ → IncidentLogRand) :
    generate_incident_logs base "cpu_spike" n ρ =
      some (incident_log_docs base n ρ CPU_SPIKE_MSGS) := by
  unfold generate_incident_logs ERROR_MESSAGES_BY_SCENARIO
  simp

lemma gil_cascading (base : ℚ) (n : ℕ) (ρ : ℕ → IncidentLogRand) :
    generate_incident_logs base "cascading_failure" n ρ =
      some (incident_log_docs base n ρ CASCADING_FAILURE_MSGS) := by
  unfold generate_incident_logs ERROR_MESSAGES_BY_SCENARIO
  simp

lemma generate_incidents_mem {nowF : ℕ → ℚ} {dk : ℕ → ℕ} {d : IncidentDoc}
    (hd : d ∈ generate_incidents nowF dk) : d.index = "soc-incidents" := by
  obtain ⟨i, hi⟩ := (List.mem_iff_getElem? (l := generate_incidents nowF dk)).mp hd
  rw [generate_incidents_getElem? nowF dk i] at hi
  obtain ⟨inc, _, rfl⟩ := Option.map_eq_some'.mp hi
  rfl

lemma not_nodup_of_getElem? {α : Type} {l : List α} {i j : ℕ} {a : α}
    (hne : i ≠ j) (hi : l[i]? = some a) (hj : l[j]? = some a) : ¬ l.Nodup := by
  intro hnodup
  have hil : i < l.length := by
    by_contra hc
    rw [List.getElem?_eq_none (by omega)] at hi
    exact Option.noConfusion hi
  have hjl : j < l.length := by
    by_contra hc
    rw [List.getElem?_eq_none (by omega)] at hj
    exact Option.noConfusion hj
  rw [List.getElem?_eq_getElem hil] at hi
  rw [List.getElem?_eq_getElem hjl] at hj
  have : l[i] = l[j] := by
    rw [Option.some_inj.mp hi, Option.some_inj.mp hj]
  exact hne ((List.Nodup.getElem_inj_iff hnodup).mp this)

/-! ## Concrete tapes for the evaluation witnesses -/

def u0 : UnitQ := ⟨0, by norm_num⟩

/-- Unit draw giving `uniform 10 55` the value `52`. -/
def uN52 : UnitQ := ⟨14/15, by norm_num⟩

/-- Unit draw giving `uniform 50 75` the value `52`. -/
def uI52 : UnitQ := ⟨2/25, by norm_num⟩

def ρNL0 : ℕ → NormalLogRand := fun _ => ⟨u0, 0, 0, 4, 0, 0, 0, 0, ""⟩

def ρIL0 : ℕ → IncidentLogRand := fun _ => ⟨u0, 0, 0, 0, 0, 0, 0, ""⟩

def ρNM0 : ℕ → NormalMetricRand := fun _ => ⟨u0, 0, u0, u0, u0, 0, 0⟩

def ρIM0 : ℕ → IncidentMetricRand := fun _ => ⟨u0, 0, u0, u0, u0, 0, 0⟩

def ρNM52 : ℕ → NormalMetricRand := fun _ => ⟨u0, 0, uN52, u0, u0, 0, 0⟩

def ρIM52 : ℕ → IncidentMetricRand := fun _ => ⟨u0, 0, uI52, u0, u0, 0, 0⟩

def nowF0 : ℕ → ℚ := fun _ => 0

def dk0 : ℕ → ℕ := fun _ => 0

/-! ## Claims -/

/-- C1 (counterexample): with the unknown scenario string `"bogus"`,
`generate_incident_metrics` does not fail: it returns a full batch that is
identical to the `cascading_failure` batch — a silent fallback.  (Only
`generate_incident_logs` raises on the unknown key.) -/
theorem C1_counterexample :
    generate_incident_metrics 0 "bogus" 1 0 0 ρIM0 =
      generate_incident_metrics 0 "cascading_failure" 1 0 0 ρIM0 ∧
    (generate_incident_metrics 0 "bogus" 1 0 0 ρIM0).length = 1 := by
  constructor
  · unfold generate_incident_metrics
    simp
  · exact generate_incident_metrics_length 0 "bogus" 1 0 0 ρIM0

/-- C1 (amended): `generate_incident_logs` fails (with the unknown-scenario
error, modelled `none`) exactly on scenario strings outside
`{cpu_spike, oom_crash, cascading_failure}`; `generate_incident_metrics`
never fails and treats every scenario other than `cpu_spike` and `oom_crash`
— unknown strings included — exactly as `cascading_failure`. -/
theorem C1_unknown_scenario :
    ∀ (base : ℚ) (scenario : String) (n : ℕ) (ρ : ℕ → IncidentLogRand)
      (j1 j2 : ℕ) (ρm : ℕ → IncidentMetricRand),
      ((generate_incident_logs base scenario n ρ).isSome ↔
        (scenario = "cpu_spike" ∨ scenario = "oom_crash" ∨
          scenario = "cascading_failure")) ∧
      (scenario ≠ "cpu_spike" → scenario ≠ "oom_crash" →
        generate_incident_metrics base scenario n j1 j2 ρm =
          generate_incident_metrics base "cascading_failure" n j1 j2 ρm) := by
  intro base scenario n ρ j1 j2 ρm
  refine ⟨generate_incident_logs_isSome_iff base scenario n ρ, ?_⟩
  intro h1 h2
  unfold generate_incident_metrics
  simp [h1, h2]

/-- C1 (witness): the amended statement evaluated at the concrete unknown
scenario string `"bogus"`. -/
theorem C1_witness :
    ((generate_incident_logs 0 "bogus" 1 ρIL0).isSome ↔
      ("bogus" = "cpu_spike" ∨ "bogus" = "oom_crash" ∨
        "bogus" = "cascading_failure")) ∧
    generate_incident_metrics 0 "bogus" 1 0 0 ρIM0 =
      generate_incident_metrics 0 "cascading_failure" 1 0 0 ρIM0 :=
  ⟨(C1_unknown_scenario 0 "bogus" 1 ρIL0 0 0 ρIM0).1,
    (C1_unknown_scenario 0 "bogus" 1 ρIL0 0 0 ρIM0).2 (by decide) (by decide)⟩

/-- C2: every normal log/metric timestamp lies in `[base - 60, base]` and
every incident log/metric timestamp lies in `[base - 15, base]`. -/
theorem C2_timestamps_within_window :
    ∀ (base : ℚ) (n : ℕ) (ρnl : ℕ → NormalLogRand)
      (ρnm : ℕ → NormalMetricRand) (scenario : String)
      (ρil : ℕ → IncidentLogRand) (j1 j2 : ℕ) (ρim : ℕ → IncidentMetricRand)
      (docs : List LogDoc),
      (∀ d ∈ generate_normal_logs base n ρnl,
        base - 60 ≤ d.timestamp ∧ d.timestamp ≤ base) ∧
      (∀ d ∈ generate_normal_metrics base n ρnm,
        base - 60 ≤ d.timestamp ∧ d.timestamp ≤ base) ∧
      (generate_incident_logs base scenario n ρil = some docs →
        ∀ d ∈ docs, base - 15 ≤ d.timestamp ∧ d.timestamp ≤ base) ∧
      (∀ d ∈ generate_incident_metrics base scenario n j1 j2 ρim,
        base - 15 ≤ d.timestamp ∧ d.timestamp ≤ base) := by
  intro base n ρnl ρnm scenario ρil j1 j2 ρim docs
  refine ⟨?_, ?_, ?_, ?_⟩
  · intro d hd
    have h := generate_normal_logs_mem hd
    exact ⟨h.2.1, h.2.2.1⟩
  · intro d hd
    have h := generate_normal_metrics_mem hd
    exact ⟨h.2.1, h.2.2.1⟩
  · intro hsome d hd
    obtain ⟨msgs, _, rfl⟩ := generate_incident_logs_eq_some hsome
    have h := incident_log_docs_mem hd
    exact ⟨h.2.1, h.2.2.1⟩
  · intro d hd
    have h := generate_incident_metrics_mem hd
    exact ⟨h.2.1, h.2.2.1⟩

/-- C2 (witness): the window bounds evaluated on concrete single-document
runs of all four generators. -/
theorem C2_witness :
    ((0:ℚ) - 60 ≤ (generate_normal_logs 0 1 ρNL0).headI.timestamp ∧
      (generate_normal_logs 0 1 ρNL0).headI.timestamp ≤ 0) ∧
    ((0:ℚ) - 60 ≤ (generate_normal_metrics 0 1 ρNM0).headI.timestamp ∧
      (generate_normal_metrics 0 1 ρNM0).headI.timestamp ≤ 0) ∧
    ((0:ℚ) - 15 ≤ (incident_log_docs 0 1 ρIL0 CPU_SPIKE_MSGS).headI.timestamp ∧
      (incident_log_docs 0 1 ρIL0 CPU_SPIKE_MSGS).headI.timestamp ≤ 0) ∧
    ((0:ℚ) - 15 ≤
        (generate_incident_metrics 0 "cpu_spike" 1 0 0 ρIM0).headI.timestamp ∧
      (generate_incident_metrics 0 "cpu_spike" 1 0 0 ρIM0).headI.timestamp ≤ 0) := by
  obtain ⟨h1, h2, h3, h4⟩ := C2_timestamps_within_window 0 1 ρNL0 ρNM0
    "cpu_spike" ρIL0 0 0 ρIM0 (incident_log_docs 0 1 ρIL0 CPU_SPIKE_MSGS)
  refine ⟨h1 _ (headI_mem ?_), h2 _ (headI_mem ?_),
    h3 (gil_cpu_spike 0 1 ρIL0) _ (headI_mem ?_), h4 _ (headI_mem ?_)⟩
  · exact List.length_pos.mp (by rw [generate_normal_logs_length]; norm_num)
  · exact List.length_pos.mp (by rw [generate_normal_metrics_length]; norm_num)
  · exact List.length_pos.mp (by rw [incident_log_docs_length]; norm_num)
  · exact List.length_pos.mp (by rw [generate_incident_metrics_length]; norm_num)

/-- C3: incident logs draw service and host from the first four configured
services/hosts; incident metrics draw host from the first four configured
hosts; for `cpu_spike` with count 80 exactly 80 log records result, each
with an incident-biased level and a host among the first four. -/
theorem C3_incident_restricted_subsets :
    ∀ (base : ℚ) (scenario : String) (n : ℕ) (ρ : ℕ → IncidentLogRand)
      (j1 j2 : ℕ) (ρm : ℕ → IncidentMetricRand) (docs docs80 : List LogDoc),
      (generate_incident_logs base scenario n ρ = some docs →
        ∀ d ∈ docs, d.service ∈ SERVICES.take 4 ∧ d.host ∈ HOSTS.take 4) ∧
      (∀ d ∈ generate_incident_metrics base scenario n j1 j2 ρm,
        d.host ∈ HOSTS.take 4) ∧
      (generate_incident_logs base "cpu_spike" 80 ρ = some docs80 →
        docs80.length = 80 ∧
        ∀ d ∈ docs80, d.level ∈ LOG_LEVELS_INCIDENT ∧ d.host ∈ HOSTS.take 4) := by
  intro base scenario n ρ j1 j2 ρm docs docs80
  refine ⟨?_, ?_, ?_⟩
  · intro hsome d hd
    obtain ⟨msgs, _, rfl⟩ := generate_incident_logs_eq_some hsome
    have h := incident_log_docs_mem hd
    exact ⟨h.2.2.2.1, h.2.2.2.2.1⟩
  · intro d hd
    have h := generate_incident_metrics_mem hd
    exact (sample2_take4_spec j1 j2).2 _ h.2.2.2.1
  · intro hsome
    obtain ⟨msgs, _, rfl⟩ := generate_incident_logs_eq_some hsome
    refine ⟨incident_log_docs_length base 80 ρ msgs, ?_⟩
    intro d hd
    have h := incident_log_docs_mem hd
    exact ⟨h.2.2.2.2.2, h.2.2.2.2.1⟩

/-- C3 (witness): the restrictions evaluated on concrete runs (scenario
`cpu_spike`, counts 1 and 80). -/
theorem C3_witness :
    ((incident_log_docs 0 1 ρIL0 CPU_SPIKE_MSGS).headI.service ∈
        SERVICES.take 4 ∧
      (incident_log_docs 0 1 ρIL0 CPU_SPIKE_MSGS).headI.host ∈ HOSTS.take 4) ∧
    (generate_incident_metrics 0 "cpu_spike" 1 0 0 ρIM0).headI.host ∈
      HOSTS.take 4 ∧
    (incident_log_docs 0 80 ρIL0 CPU_SPIKE_MSGS).length = 80 ∧
    ((incident_log_docs 0 80 ρIL0 CPU_SPIKE_MSGS).headI.level ∈
        LOG_LEVELS_INCIDENT ∧
      (incident_log_docs 0 80 ρIL0 CPU_SPIKE_MSGS).headI.host ∈ HOSTS.take 4) := by
  obtain ⟨h1, h2, h3⟩ := C3_incident_restricted_subsets 0 "cpu_spike" 1 ρIL0
    0 0 ρIM0 (incident_log_docs 0 1 ρIL0 CPU_SPIKE_MSGS)
    (incident_log_docs 0 80 ρIL0 CPU_SPIKE_MSGS)
  have h3' := h3 (gil_cpu_spike 0 80 ρIL0)
  refine ⟨h1 (gil_cpu_spike 0 1 ρIL0) _ (headI_mem ?_), h2 _ (headI_mem ?_),
    h3'.1, h3'.2 _ (headI_mem ?_)⟩
  · exact List.length_pos.mp (by rw [incident_log_docs_length]; norm_num)
  · exact List.length_pos.mp (by rw [generate_incident_metrics_length]; norm_num)
  · exact List.length_pos.mp (by rw [incident_log_docs_length]; norm_num)

/-- C4: each generator returns exactly the requested number of documents,
and the batch `seed_scenario` assembles uses the default counts
200 / 100 / 80 / 50 plus the 8 catalog incidents. -/
theorem C4_counts :
    ∀ (base : ℚ) (n : ℕ) (ρnl : ℕ → NormalLogRand)
      (ρnm : ℕ → NormalMetricRand) (scenario : String)
      (ρil : ℕ → IncidentLogRand) (j1 j2 : ℕ) (ρim : ℕ → IncidentMetricRand)
      (nowF : ℕ → ℚ) (dk : ℕ → ℕ) (docs : List LogDoc) (batch : List Doc),
      (generate_normal_logs base n ρnl).length = n ∧
      (generate_normal_metrics base n ρnm).length = n ∧
      (generate_incident_logs base scenario n ρil = some docs →
        docs.length = n) ∧
      (generate_incident_metrics base scenario n j1 j2 ρim).length = n ∧
      (seed_scenario_docs base scenario ρnl ρnm ρil j1 j2 ρim nowF dk =
          some batch →
        batch.length = 200 + 100 + 80 + 50 + 8) := by
  intro base n ρnl ρnm scenario ρil j1 j2 ρim nowF dk docs batch
  refine ⟨generate_normal_logs_length base n ρnl,
    generate_normal_metrics_length base n ρnm, ?_,
    generate_incident_metrics_length base scenario n j1 j2 ρim, ?_⟩
  · intro hsome
    obtain ⟨msgs, _, rfl⟩ := generate_incident_logs_eq_some hsome
    exact incident_log_docs_length base n ρil msgs
  · intro hseed
    obtain ⟨il, hil, rfl⟩ := seed_scenario_docs_eq_some hseed
    obtain ⟨msgs, _, rfl⟩ := generate_incident_logs_eq_some hil
    simp [generate_normal_logs_length, generate_normal_metrics_length,
      incident_log_docs_length, generate_incident_metrics_length,
      generate_incidents_length, HISTORICAL_INCIDENTS]

/-- Batch assembled by `seed_scenario` for a known scenario, explicitly. -/
lemma seed_cpu_spike (now : ℚ) (ρnl : ℕ → NormalLogRand)
    (ρnm : ℕ → NormalMetricRand) (ρil : ℕ → IncidentLogRand) (j1 j2 : ℕ)
    (ρim : ℕ → IncidentMetricRand) (nowF : ℕ → ℚ) (dk : ℕ → ℕ) :
    seed_scenario_docs now "cpu_spike" ρnl ρnm ρil j1 j2 ρim nowF dk =
      some ((generate_normal_logs now 200 ρnl).map Doc.log
        ++ (generate_normal_metrics now 100 ρnm).map Doc.metric
        ++ (incident_log_docs now 80 ρil CPU_SPIKE_MSGS).map Doc.log
        ++ (generate_incident_metrics now "cpu_spike" 50 j1 j2 ρim).map
            Doc.metric
        ++ (generate_incidents nowF dk).map Doc.incident) := by
  unfold seed_scenario_docs
  rw [gil_cpu_spike]

/-- C4 (witness): the counts evaluated on a concrete `cpu_spike` run. -/
theorem C4_witness :
    (generate_normal_logs 0 1 ρNL0).length = 1 ∧
    (incident_log_docs 0 1 ρIL0 CPU_SPIKE_MSGS).length = 1 ∧
    ((generate_normal_logs 0 200 ρNL0).map Doc.log
        ++ (generate_normal_metrics 0 100 ρNM0).map Doc.metric
        ++ (incident_log_docs 0 80 ρIL0 CPU_SPIKE_MSGS).map Doc.log
        ++ (generate_incident_metrics 0 "cpu_spike" 50 0 0 ρIM0).map Doc.metric
        ++ (generate_incidents nowF0 dk0).map Doc.incident).length =
      200 + 100 + 80 + 50 + 8 := by
  have h := C4_counts 0 1 ρNL0 ρNM0 "cpu_spike" ρIL0 0 0 ρIM0 nowF0 dk0
    (incident_log_docs 0 1 ρIL0 CPU_SPIKE_MSGS)
    ((generate_normal_logs 0 200 ρNL0).map Doc.log
      ++ (generate_normal_metrics 0 100 ρNM0).map Doc.metric
      ++ (incident_log_docs 0 80 ρIL0 CPU_SPIKE_MSGS).map Doc.log
      ++ (generate_incident_metrics 0 "cpu_spike" 50 0 0 ρIM0).map Doc.metric
      ++ (generate_incidents nowF0 dk0).map Doc.incident)
  exact ⟨h.1, h.2.2.1 (gil_cpu_spike 0 1 ρIL0),
    h.2.2.2.2 (seed_cpu_spike 0 ρNL0 ρNM0 ρIL0 0 0 ρIM0 nowF0 dk0)⟩

/-- C5 (counterexample): `created_at` distinctness is not guaranteed.  With
equal clock readings and equal `randint(7, 180)` draws (both possible: the
wall clock has finite resolution and the draws are independent), the first
two generated incidents carry the same `created_at`. -/
theorem C5_counterexample :
    (generate_incidents nowF0 dk0)[0]?.map IncidentDoc.created_at =
      some ((-10080 : ℚ)) ∧
    (generate_incidents nowF0 dk0)[1]?.map IncidentDoc.created_at =
      some ((-10080 : ℚ)) ∧
    ¬ ((generate_incidents nowF0 dk0).map IncidentDoc.created_at).Nodup := by
  have h0 : (generate_incidents nowF0 dk0)[0]?.map IncidentDoc.created_at =
      some ((-10080 : ℚ)) := by
    rw [generate_incidents_getElem?]
    norm_num [HISTORICAL_INCIDENTS, nowF0, dk0, randint]
  have h1 : (generate_incidents nowF0 dk0)[1]?.map IncidentDoc.created_at =
      some ((-10080 : ℚ)) := by
    rw [generate_incidents_getElem?]
    norm_num [HISTORICAL_INCIDENTS, nowF0, dk0, randint]
  refine ⟨h0, h1, ?_⟩
  have g0 : ((generate_incidents nowF0 dk0).map IncidentDoc.created_at)[0]? =
      some ((-10080 : ℚ)) := by
    rw [List.getElem?_map, h0]
  have g1 : ((generate_incidents nowF0 dk0).map IncidentDoc.created_at)[1]? =
      some ((-10080 : ℚ)) := by
    rw [List.getElem?_map, h1]
  exact not_nodup_of_getElem? (by norm_num) g0 g1

/-- C5 (amended): `generate_incidents` always returns exactly the catalog
size (8) documents, and each document's `created_at` lies between 180 and 7
days before the clock reading of its iteration — strictly in the past.
Pairwise distinctness of the `created_at` values is NOT guaranteed (dropped
from the claim; see the counterexample). -/
theorem C5_incidents_count_and_past :
    ∀ (nowF : ℕ → ℚ) (dk : ℕ → ℕ),
      (generate_incidents nowF dk).length = HISTORICAL_INCIDENTS.length ∧
      HISTORICAL_INCIDENTS.length = 8 ∧
      ∀ (i : ℕ) (d : IncidentDoc), (generate_incidents nowF dk)[i]? = some d →
        nowF i - 180 * 1440 ≤ d.created_at ∧
        d.created_at ≤ nowF i - 7 * 1440 ∧ d.created_at < nowF i := by
  intro nowF dk
  refine ⟨generate_incidents_length nowF dk, rfl, ?_⟩
  intro i d hd
  rw [generate_incidents_getElem?] at hd
  obtain ⟨inc, _hinc, rfl⟩ := Option.map_eq_some'.mp hd
  have h1 := le_randint (by norm_num : (7:ℤ) ≤ 180) (dk i)
  have h2 := randint_le (by norm_num : (7:ℤ) ≤ 180) (dk i)
  have hc1 : (7:ℚ) ≤ (randint 7 180 (dk i) : ℚ) := by exact_mod_cast h1
  have hc2 : ((randint 7 180 (dk i)):ℚ) ≤ 180 := by exact_mod_cast h2
  dsimp only
  refine ⟨by linarith, by linarith, by linarith⟩

/-- C5 (witness): the count and past-window bounds evaluated on a concrete
clock/draw tape, at the first generated incident. -/
theorem C5_witness :
    (generate_incidents nowF0 dk0).length = HISTORICAL_INCIDENTS.length ∧
    HISTORICAL_INCIDENTS.length = 8 ∧
    (nowF0 0 - 180 * 1440 ≤ (generate_incidents nowF0 dk0).headI.created_at ∧
      (generate_incidents nowF0 dk0).headI.created_at ≤ nowF0 0 - 7 * 1440 ∧
      (generate_incidents nowF0 dk0).headI.created_at < nowF0 0) := by
  have h := C5_incidents_count_and_past nowF0 dk0
  refine ⟨h.1, h.2.1, h.2.2 0 _ (getElem?_zero_headI ?_)⟩
  refine List.length_pos.mp ?_
  rw [generate_incidents_length]
  norm_num [HISTORICAL_INCIDENTS]

/-- C6: every generated incident document carries all nine content fields of
its catalog entry unchanged; only `created_at` is freshly computed from that
invocation's clock reading and random draw. -/
theorem C6_catalog_content_unchanged :
    ∀ (nowF : ℕ → ℚ) (dk : ℕ → ℕ) (i : ℕ) (e : IncidentEntry)
      (d : IncidentDoc),
      HISTORICAL_INCIDENTS[i]? = some e →
      (generate_incidents nowF dk)[i]? = some d →
      d.incident_id = e.incident_id ∧ d.title = e.title ∧
      d.root_cause = e.root_cause ∧ d.resolution = e.resolution ∧
      d.services_affected = e.services_affected ∧ d.severity = e.severity ∧
      d.duration_min = e.duration_min ∧ d.tags = e.tags ∧
      d.runbook = e.runbook ∧
      d.created_at = nowF i - (randint 7 180 (dk i) : ℚ) * 1440 := by
  intro nowF dk i e d he hd
  rw [generate_incidents_getElem?, he] at hd
  simp only [Option.map_some', Option.some.injEq] at hd
  subst hd
  exact ⟨rfl, rfl, rfl, rfl, rfl, rfl, rfl, rfl, rfl, rfl⟩

/-- C6 (witness): the content preservation evaluated at catalog index 0 on a
concrete tape. -/
theorem C6_witness :
    (generate_incidents nowF0 dk0).headI.incident_id =
      HISTORICAL_INCIDENTS.headI.incident_id ∧
    (generate_incidents nowF0 dk0).headI.title =
      HISTORICAL_INCIDENTS.headI.title ∧
    (generate_incidents nowF0 dk0).headI.runbook =
      HISTORICAL_INCIDENTS.headI.runbook ∧
    (generate_incidents nowF0 dk0).headI.created_at =
      nowF0 0 - (randint 7 180 (dk0 0) : ℚ) * 1440 := by
  have hne : HISTORICAL_INCIDENTS ≠ [] := by
    intro hcon
    have : HISTORICAL_INCIDENTS.length = 0 := by rw [hcon]; rfl
    norm_num [HISTORICAL_INCIDENTS] at this
  have hne2 : generate_incidents nowF0 dk0 ≠ [] := by
    refine List.length_pos.mp ?_
    rw [generate_incidents_length]
    exact List.length_pos.mpr hne
  have h := C6_catalog_content_unchanged nowF0 dk0 0
    HISTORICAL_INCIDENTS.headI (generate_incidents nowF0 dk0).headI
    (getElem?_zero_headI hne) (getElem?_zero_headI hne2)
  exact ⟨h.1, h.2.1, h.2.2.2.2.2.2.2.2.1, h.2.2.2.2.2.2.2.2.2⟩

/-- C7 (counterexample): the healthy and scenario ranges are NOT disjoint
for every field and scenario: `cpu_pct = 52.0` is producible both by
`generate_normal_metrics` (healthy range `[10, 55]`) and by
`generate_incident_metrics` for `oom_crash` (scenario range `[50, 75]`). -/
theorem C7_counterexample :
    (generate_normal_metrics 0 1 ρNM52).headI.cpu_pct = 52 ∧
    (generate_incident_metrics 0 "oom_crash" 1 0 0 ρIM52).headI.cpu_pct = 52 := by
  constructor
  · have e : (generate_normal_metrics 0 1 ρNM52).headI.cpu_pct =
        pyround1 (uniform 10 55 uN52) := rfl
    rw [e]
    have eu : uniform 10 55 uN52 = 52 := by
      unfold uniform uN52
      norm_num
    rw [eu]
    unfold pyround1 roundHalfEven
    norm_num
  · have e : (generate_incident_metrics 0 "oom_crash" 1 0 0 ρIM52).headI.cpu_pct
        = pyround1 (uniform 50 75 uI52) := rfl
    rw [e]
    have eu : uniform 50 75 uI52 = 52 := by
      unfold uniform uI52
      norm_num
    rw [eu]
    unfold pyround1 roundHalfEven
    norm_num

/-- C7 (amended): for every scenario the scenario ranges for `disk_io`,
`net_in` and `net_out` are strictly disjoint from (indeed above) the healthy
ranges; the `cpu_pct` ranges are disjoint for every scenario except
`oom_crash` (whose range `[50, 75]` overlaps the healthy `[10, 55]`), and the
`mem_pct` ranges are disjoint for every scenario except `cpu_spike` (whose
range `[60, 80]` overlaps the healthy `[30, 70]`). -/
theorem C7_range_disjointness :
    ∀ (base : ℚ) (n m : ℕ) (ρnm : ℕ → NormalMetricRand) (scenario : String)
      (j1 j2 : ℕ) (ρim : ℕ → IncidentMetricRand),
      ∀ dn ∈ generate_normal_metrics base n ρnm,
      ∀ di ∈ generate_incident_metrics base scenario m j1 j2 ρim,
        dn.disk_io < di.disk_io ∧ dn.net_in < di.net_in ∧
        dn.net_out < di.net_out ∧
        (scenario ≠ "oom_crash" → dn.cpu_pct < di.cpu_pct) ∧
        (scenario ≠ "cpu_spike" → dn.mem_pct < di.mem_pct) := by
  intro base n m ρnm scenario j1 j2 ρim dn hdn di hdi
  have hn := generate_normal_metrics_mem hdn
  have hi := generate_incident_metrics_mem hdi
  obtain ⟨-, -, -, -, -, hncpu, -, hnmem, hndisk1, hndisk2, hnin1, hnin2,
    hnout1, hnout2⟩ := hn
  obtain ⟨-, -, -, -, hidisk, -, hiin, -, hiout, -, hic, hio, hielse⟩ := hi
  refine ⟨by linarith, by linarith, by linarith, ?_, ?_⟩
  · intro hs
    by_cases hc : scenario = "cpu_spike"
    · have := (hic hc).1
      linarith
    · have := (hielse hc hs).1
      linarith
  · intro hs
    by_cases ho : scenario = "oom_crash"
    · have := (hio ho).2.2.1
      linarith
    · have := (hielse hs ho).2.2.1
      linarith

/-- C7 (witness): the amended disjointness evaluated on concrete
single-document runs (scenario `cascading_failure`). -/
theorem C7_witness :
    (generate_normal_metrics 0 1 ρNM0).headI.disk_io <
      (generate_incident_metrics 0 "cascading_failure" 1 0 0
        ρIM0).headI.disk_io ∧
    (generate_normal_metrics 0 1 ρNM0).headI.cpu_pct <
      (generate_incident_metrics 0 "cascading_failure" 1 0 0
        ρIM0).headI.cpu_pct ∧
    (generate_normal_metrics 0 1 ρNM0).headI.mem_pct <
      (generate_incident_metrics 0 "cascading_failure" 1 0 0
        ρIM0).headI.mem_pct := by
  have h := C7_range_disjointness 0 1 1 ρNM0 "cascading_failure" 0 0 ρIM0
    (generate_normal_metrics 0 1 ρNM0).headI
    (headI_mem (List.length_pos.mp
      (by rw [generate_normal_metrics_length]; norm_num)))
    (generate_incident_metrics 0 "cascading_failure" 1 0 0 ρIM0).headI
    (headI_mem (List.length_pos.mp
      (by rw [generate_incident_metrics_length]; norm_num)))
  exact ⟨h.1, h.2.2.2.1 (by decide), h.2.2.2.2 (by decide)⟩

/-- C8: every generated log record carries a service from the fixed set of
8 configured services and a host from the fixed set of 8 configured hosts,
and every generated metric record carries such a host. -/
theorem C8_closed_service_host_sets :
    ∀ (base : ℚ) (n : ℕ) (ρnl : ℕ → NormalLogRand)
      (ρnm : ℕ → NormalMetricRand) (scenario : String)
      (ρil : ℕ → IncidentLogRand) (j1 j2 : ℕ) (ρim : ℕ → IncidentMetricRand)
      (docs : List LogDoc),
      (∀ d ∈ generate_normal_logs base n ρnl,
        d.service ∈ SERVICES ∧ d.host ∈ HOSTS) ∧
      (∀ d ∈ generate_normal_metrics base n ρnm, d.host ∈ HOSTS) ∧
      (generate_incident_logs base scenario n ρil = some docs →
        ∀ d ∈ docs, d.service ∈ SERVICES ∧ d.host ∈ HOSTS) ∧
      (∀ d ∈ generate_incident_metrics base scenario n j1 j2 ρim,
        d.host ∈ HOSTS) := by
  intro base n ρnl ρnm scenario ρil j1 j2 ρim docs
  refine ⟨?_, ?_, ?_, ?_⟩
  · intro d hd
    have h := generate_normal_logs_mem hd
    exact ⟨h.2.2.2.1, h.2.2.2.2.1⟩
  · intro d hd
    exact (generate_normal_metrics_mem hd).2.2.2.1
  · intro hsome d hd
    obtain ⟨msgs, _, rfl⟩ := generate_incident_logs_eq_some hsome
    have h := incident_log_docs_mem hd
    exact ⟨List.take_subset 4 SERVICES h.2.2.2.1,
      List.take_subset 4 HOSTS h.2.2.2.2.1⟩
  · intro d hd
    have h := generate_incident_metrics_mem hd
    exact List.take_subset 4 HOSTS
      ((sample2_take4_spec j1 j2).2 _ h.2.2.2.1)

/-- C8 (witness): the closed-set membership evaluated on concrete
single-document runs of all four generators. -/
theorem C8_witness :
    ((generate_normal_logs 0 1 ρNL0).headI.service ∈ SERVICES ∧
      (generate_normal_logs 0 1 ρNL0).headI.host ∈ HOSTS) ∧
    (generate_normal_metrics 0 1 ρNM0).headI.host ∈ HOSTS ∧
    ((incident_log_docs 0 1 ρIL0 CPU_SPIKE_MSGS).headI.service ∈ SERVICES ∧
      (incident_log_docs 0 1 ρIL0 CPU_SPIKE_MSGS).headI.host ∈ HOSTS) ∧
    (generate_incident_metrics 0 "cpu_spike" 1 0 0 ρIM0).headI.host ∈ HOSTS := by
  obtain ⟨h1, h2, h3, h4⟩ := C8_closed_service_host_sets 0 1 ρNL0 ρNM0
    "cpu_spike" ρIL0 0 0 ρIM0 (incident_log_docs 0 1 ρIL0 CPU_SPIKE_MSGS)
  refine ⟨h1 _ (headI_mem ?_), h2 _ (headI_mem ?_),
    h3 (gil_cpu_spike 0 1 ρIL0) _ (headI_mem ?_), h4 _ (headI_mem ?_)⟩
  · exact List.length_pos.mp (by rw [generate_normal_logs_length]; norm_num)
  · exact List.length_pos.mp (by rw [generate_normal_metrics_length]; norm_num)
  · exact List.length_pos.mp (by rw [incident_log_docs_length]; norm_num)
  · exact List.length_pos.mp (by rw [generate_incident_metrics_length]; norm_num)

/-- C9: the schema registry declares the `soc-actions` index, but every
document of the batch assembled by `seed_scenario` targets `soc-logs`,
`soc-metrics` or `soc-incidents` — never `soc-actions`. -/
theorem C9_actions_never_populated :
    ∀ (now : ℚ) (scenario : String) (ρnl : ℕ → NormalLogRand)
      (ρnm : ℕ → NormalMetricRand) (ρil : ℕ → IncidentLogRand) (j1 j2 : ℕ)
      (ρim : ℕ → IncidentMetricRand) (nowF : ℕ → ℚ) (dk : ℕ → ℕ)
      (batch : List Doc),
      "soc-actions" ∈ MAPPINGS.map Prod.fst ∧
      (seed_scenario_docs now scenario ρnl ρnm ρil j1 j2 ρim nowF dk =
          some batch →
        ∀ d ∈ batch,
          (d.index = "soc-logs" ∨ d.index = "soc-metrics" ∨
            d.index = "soc-incidents") ∧ d.index ≠ "soc-actions") := by
  intro now scenario ρnl ρnm ρil j1 j2 ρim nowF dk batch
  refine ⟨by decide, ?_⟩
  intro hseed d hd
  obtain ⟨il, hil, rfl⟩ := seed_scenario_docs_eq_some hseed
  obtain ⟨msgs, _, rfl⟩ := generate_incident_logs_eq_some hil
  simp only [List.mem_append, List.mem_map] at hd
  have hidx : d.index = "soc-logs" ∨ d.index = "soc-metrics" ∨
      d.index = "soc-incidents" := by
    rcases hd with ((((⟨x, hx, rfl⟩ | ⟨x, hx, rfl⟩) | ⟨x, hx, rfl⟩) |
        ⟨x, hx, rfl⟩) | ⟨x, hx, rfl⟩)
    · exact Or.inl (generate_normal_logs_mem hx).1
    · exact Or.inr (Or.inl (generate_normal_metrics_mem hx).1)
    · exact Or.inl (incident_log_docs_mem hx).1
    · exact Or.inr (Or.inl (generate_incident_metrics_mem hx).1)
    · exact Or.inr (Or.inr (generate_incidents_mem hx))
  refine ⟨hidx, ?_⟩
  rcases hidx with h | h | h <;> rw [h] <;> decide

/-- C9 (witness): the index restriction evaluated on the first document of a
concrete `cpu_spike` batch. -/
theorem C9_witness :
    "soc-actions" ∈ MAPPINGS.map Prod.fst ∧
    (((generate_normal_logs 0 200 ρNL0).map Doc.log
        ++ (generate_normal_metrics 0 100 ρNM0).map Doc.metric
        ++ (incident_log_docs 0 80 ρIL0 CPU_SPIKE_MSGS).map Doc.log
        ++ (generate_incident_metrics 0 "cpu_spike" 50 0 0 ρIM0).map Doc.metric
        ++ (generate_incidents nowF0 dk0).map Doc.incident).headI.index =
          "soc-logs" ∨
      ((generate_normal_logs 0 200 ρNL0).map Doc.log
        ++ (generate_normal_metrics 0 100 ρNM0).map Doc.metric
        ++ (incident_log_docs 0 80 ρIL0 CPU_SPIKE_MSGS).map Doc.log
        ++ (generate_incident_metrics 0 "cpu_spike" 50 0 0 ρIM0).map Doc.metric
        ++ (generate_incidents nowF0 dk0).map Doc.incident).headI.index =
          "soc-metrics" ∨
      ((generate_normal_logs 0 200 ρNL0).map Doc.log
        ++ (generate_normal_metrics 0 100 ρNM0).map Doc.metric
        ++ (incident_log_docs 0 80 ρIL0 CPU_SPIKE_MSGS).map Doc.log
        ++ (generate_incident_metrics 0 "cpu_spike" 50 0 0 ρIM0).map Doc.metric
        ++ (generate_incidents nowF0 dk0).map Doc.incident).headI.index =
          "soc-incidents") ∧
    ((generate_normal_logs 0 200 ρNL0).map Doc.log
        ++ (generate_normal_metrics 0 100 ρNM0).map Doc.metric
        ++ (incident_log_docs 0 80 ρIL0 CPU_SPIKE_MSGS).map Doc.log
        ++ (generate_incident_metrics 0 "cpu_spike" 50 0 0 ρIM0).map Doc.metric
        ++ (generate_incidents nowF0 dk0).map Doc.incident).headI.index ≠
      "soc-actions" := by
  have h := C9_actions_never_populated 0 "cpu_spike" ρNL0 ρNM0 ρIL0 0 0 ρIM0
    nowF0 dk0
    ((generate_normal_logs 0 200 ρNL0).map Doc.log
      ++ (generate_normal_metrics 0 100 ρNM0).map Doc.metric
      ++ (incident_log_docs 0 80 ρIL0 CPU_SPIKE_MSGS).map Doc.log
      ++ (generate_incident_metrics 0 "cpu_spike" 50 0 0 ρIM0).map Doc.metric
      ++ (generate_incidents nowF0 dk0).map Doc.incident)
  have hbatch := h.2 (seed_cpu_spike 0 ρNL0 ρNM0 ρIL0 0 0 ρIM0 nowF0 dk0)
  have hne : ((generate_normal_logs 0 200 ρNL0).map Doc.log
      ++ (generate_normal_metrics 0 100 ρNM0).map Doc.metric
      ++ (incident_log_docs 0 80 ρIL0 CPU_SPIKE_MSGS).map Doc.log
      ++ (generate_incident_metrics 0 "cpu_spike" 50 0 0 ρIM0).map Doc.metric
      ++ (generate_incidents nowF0 dk0).map Doc.incident) ≠ [] := by
    refine List.length_pos.mp ?_
    simp [generate_normal_logs_length, generate_normal_metrics_length,
      incident_log_docs_length, generate_incident_metrics_length,
      generate_incidents_length]
  have hd := hbatch _ (headI_mem hne)
  exact ⟨h.1, hd.1, hd.2⟩

/-- C10: each call of `generate_incident_metrics` draws exactly 2 distinct
target hosts from the first four configured hosts, and every record of that
call has its host in that 2-element set. -/
theorem C10_two_target_hosts :
    ∀ (base : ℚ) (scenario : String) (n : ℕ) (j1 j2 : ℕ)
      (ρ : ℕ → IncidentMetricRand),
      (sample2 (HOSTS.take 4) j1 j2).length = 2 ∧
      (sample2 (HOSTS.take 4) j1 j2).Nodup ∧
      (∀ x ∈ sample2 (HOSTS.take 4) j1 j2, x ∈ HOSTS.take 4) ∧
      ∀ d ∈ generate_incident_metrics base scenario n j1 j2 ρ,
        d.host ∈ sample2 (HOSTS.take 4) j1 j2 := by
  intro base scenario n j1 j2 ρ
  refine ⟨rfl, (sample2_take4_spec j1 j2).1, (sample2_take4_spec j1 j2).2, ?_⟩
  intro d hd
  exact (generate_incident_metrics_mem hd).2.2.2.1

/-- C10 (witness): the two-host restriction evaluated on a concrete run. -/
theorem C10_witness :
    (sample2 (HOSTS.take 4) 0 0).length = 2 ∧
    (sample2 (HOSTS.take 4) 0 0).Nodup ∧
    (sample2 (HOSTS.take 4) 0 0).headI ∈ HOSTS.take 4 ∧
    (generate_incident_metrics 0 "cpu_spike" 1 0 0 ρIM0).headI.host ∈
      sample2 (HOSTS.take 4) 0 0 := by
  have h := C10_two_target_hosts 0 "cpu_spike" 1 0 0 ρIM0
  refine ⟨h.1, h.2.1, h.2.2.1 _ (headI_mem (by decide)),
    h.2.2.2 _ (headI_mem ?_)⟩
  exact List.length_pos.mp (by rw [generate_incident_metrics_length]; norm_num)
